import Mathlib

/-!
Shallow embedding of the transfer confirmation orchestrator implemented in
`packages/bridge-ui-v2/src/components/Bridge/NFTBridgeSteps/ConfirmationStep.svelte`.

The component's collaborators (`$libs/...`, viem, stores) live outside the
repository excerpt; they are modelled as oracle fields of an `Env` record.
Each flow (`approve`, `bridge`, `handleBridgeTxHash`) is translated into a
pure function from an `Env` and the component state to a result holding the
final state, the ordered list of observable events of the execution
(including the continuation attached with `.then`), whether the async
function itself ran to completion, and any error that escaped in a detached
promise chain (an unhandled rejection).
-/

namespace ConfirmationStep

abbrev Address := String
abbrev Hash := String
abbrev ChainId := Nat
abbrev Wallet := Nat
abbrev BridgeArgs := String

/-- JS truthiness of a possibly-absent numeric chain id (as in
`!$destNetwork?.id` or `!currentChain`): `undefined` and `0` are falsy. -/
def idTruthy : Option ChainId → Bool
  | none => false
  | some n => n != 0

/-- JS truthiness of a possibly-absent string (as in `!$account?.address`,
`!tokenAddress`, `if (approveTxHash)`): `undefined` and `""` are falsy. -/
def strTruthy : Option String → Bool
  | none => false
  | some s => s != ""

/-- Token standards; the `TokenType` enum imported from `$libs/token`. -/
inductive TokenType where
  | ETH
  | ERC20
  | ERC721
  | ERC1155
deriving DecidableEq, Repr

/-- Message lifecycle status; the `MessageStatus` enum imported from
`$libs/bridge`.  The component only ever uses `NEW` (line 81). -/
inductive MessageStatus where
  | NEW
  | RETRIABLE
  | DONE
  | FAILED
deriving DecidableEq, Repr

/-- The selected token: fungibility tag, symbol, decimals and the per-chain
address map (`$selectedToken.addresses[$network.id]`). -/
structure Token where
  type : TokenType
  symbol : String
  decimals : Nat
  addresses : ChainId → Option Address

/-- One selected NFT; the component only reads `nft.tokenId`. -/
structure NFT where
  tokenId : Nat
deriving DecidableEq, Repr

/-- One entry of `routingContractsMap[src][dst]`; the component only reads
the two vault addresses (lines 117-118). -/
structure RoutingContracts where
  erc721VaultAddress : Address
  erc1155VaultAddress : Address
deriving DecidableEq, Repr

/-- The `NFTApproveArgs` bundle built at line 120.  `tokenIds` is optional
because the code computes it as `$selectedNFTs && $selectedNFTs.map(...)`
and passes it through with a non-null assertion (`tokenIds!`). -/
structure NFTApproveArgs where
  tokenIds : Option (List Nat)
  tokenAddress : Address
  spenderAddress : Address
  wallet : Wallet
deriving DecidableEq, Repr

/-- The `commonArgs` object built at lines 159-165. -/
structure CommonArgs where
  «to» : Address
  wallet : Wallet
  srcChainId : ChainId
  destChainId : ChainId
  fee : Nat
deriving DecidableEq, Repr

/-- The persisted bridge transaction record (the `bridgeTx` object literal of
lines 72-83).  The token-derived fields are optional because the literal uses
optional chaining (`$selectedToken?.symbol`) under an `as BridgeTransaction`
cast.  Chain ids are `Int` to model the `BigInt(...)` conversions. -/
structure BridgeTransaction where
  hash : Hash
  sender : Address
  amount : Nat
  symbol : Option String
  decimals : Option Nat
  srcChainId : Int
  destChainId : Int
  tokenType : Option TokenType
  status : MessageStatus
  timestamp : Nat
deriving DecidableEq, Repr

/-- Errors raised in the component.  The first constructor is the
`BridgePausedError` from `$libs/error`; the next three are the component's
own `new Error(...)` throws, named after their messages; `upstream` stands
for opaque exceptions thrown by collaborators. -/
inductive Err where
  | bridgePaused
  | crossChainAddressNotFound
  | tokenAddressNotFound
  | tokenIdsNotFound
  | upstream (msg : String)
deriving DecidableEq, Repr

/-- The classification used by the specification: `AddressNotFound` covers
both address-lookup failures thrown inside `approve()` (lines 107 and 111). -/
def Err.isAddressNotFound : Err → Bool
  | .crossChainAddressNotFound => true
  | .tokenAddressNotFound => true
  | _ => false

/-- Behaviour of the promise returned by `pendingTransactions.add`: it
resolves once the transaction is confirmed, rejects with an error, or never
settles. -/
inductive PendingOutcome where
  | resolved
  | rejected (e : Err)
  | unresolved
deriving DecidableEq, Repr

/-- Observable events of one execution, in program order. -/
inductive Event where
  | approveCalled (ty : TokenType) (args : NFTApproveArgs)
  | infoToastShown
  | pendingAdded (h : Option Hash) (c : ChainId)
  | confirmed (h : Option Hash)
  | approvalStatusRefreshed
  | successToastShown
  | bridgeCalled (args : BridgeArgs) (tokenIds : List Nat)
  | txPersisted (a : Address) (tx : BridgeTransaction)
  | errorLogged (e : Err)
  | errorHandled (e : Err)
deriving DecidableEq, Repr

/-- `true` exactly on `txPersisted` events (`bridgeTxService.addTxByAddress`). -/
def Event.isPersist : Event → Bool
  | .txPersisted _ _ => true
  | _ => false

/-- `true` exactly on `confirmed` events (resolution of the pending tracker). -/
def Event.isConfirm : Event → Bool
  | .confirmed _ => true
  | _ => false

/-- The exported `bridgingStatus` values (line 41). -/
inductive BridgingStatus where
  | pending
  | done
deriving DecidableEq, Repr

/-- Component-level mutable state: the exported status, the two in-flight
flags, the reactive status strings, the two hash variables and the contents
of the transaction history store. -/
structure OState where
  bridgingStatus : BridgingStatus
  bridging : Bool
  approving : Bool
  statusTitle : String
  statusDescription : String
  bridgeTxHash : Option Hash
  approveTxHash : Option Hash
  txStore : List (Address × BridgeTransaction)
deriving DecidableEq, Repr

/-- Initial component state: `bridgingStatus` defaults to pending (line 41),
the flags are undefined (falsy), and the reactive statements of lines 48-49
initialise the status strings. -/
def initialState : OState where
  bridgingStatus := .pending
  bridging := false
  approving := false
  statusTitle := "Success!"
  statusDescription := ""
  bridgeTxHash := none
  approveTxHash := none
  txStore := []

/-- The environment: store snapshots and collaborator behaviours.  The fields
suffixed `H` are the values the ambient stores hold when `handleBridgeTxHash`
and its resolution callback run (the stores are mutable and the flow suspends
between `bridge()`s entry and the handler).  `submitTime` is the wall-clock
instant at which the bridge service returns the transaction hash; it is never
sampled by the code.  `confirmTime` is the instant the confirmation callback
runs, which is what its `Date.now()` call (line 82) returns; confirmation
cannot precede submission, so `submitTime ≤ confirmTime` in any real run. -/
structure Env where
  network : Option ChainId
  destNetwork : Option ChainId
  account : Option Address
  selectedToken : Option Token
  selectedNFTs : Option (List NFT)
  hasBridgeService : Bool
  recipientAddress : Option Address
  processingFee : Nat
  enteredAmount : Nat
  paused : Bool
  getConnectedWallet : ChainId → Except Err Wallet
  viemGetAddress : Option Address → Except Err (Option Address)
  getCrossChainAddress : Token → ChainId → ChainId → Except Err (Option Address)
  routingContractsMap : ChainId → ChainId → RoutingContracts
  bridgesApprove : TokenType → NFTApproveArgs → Except Err (Option Hash)
  getBridgeArgs : Token → Nat → CommonArgs → List Nat → Except Err BridgeArgs
  serviceBridge : BridgeArgs → List Nat → Except Err (Option Hash)
  pendingOutcome : Option Hash → ChainId → PendingOutcome
  getTokenApprovalStatus : Token → Except Err Unit
  explorer : ChainId → String
  i18n : String → String
  networkH : Option ChainId
  destNetworkH : Option ChainId
  accountH : Option Address
  selectedTokenH : Option Token
  enteredAmountH : Nat
  submitTime : Nat
  confirmTime : Nat

/-- How a try block ended: normally, by throwing, or suspended forever on an
await that never settles. -/
inductive TryExit where
  | ok
  | thrown (e : Err)
  | suspended
deriving DecidableEq, Repr

/-- Result of running one flow to quiescence: final state, events in order,
whether the async function itself completed, and an error that escaped in a
detached promise chain (an unhandled rejection), if any. -/
structure FlowResult where
  state : OState
  trace : List Event
  completed : Bool
  detached : Option Err
deriving Repr

/-- `$recipientAddress || $account.address` (line 160): JS `||`, so an empty
string also falls back to the sender. -/
def resolvedRecipient (env : Env) (addr : Address) : Address :=
  match env.recipientAddress with
  | some r => if r = "" then addr else r
  | none => addr

/-- The `commonArgs` built at lines 159-165 of `bridge()`. -/
def mkCommonArgs (env : Env) (addr : Address) (w : Wallet)
    (netId destId : ChainId) : CommonArgs where
  «to» := resolvedRecipient env addr
  wallet := w
  srcChainId := netId
  destChainId := destId
  fee := env.processingFee

/-- The `bridgeTx` record literal built in the confirmation callback
(lines 72-83).  The token-derived fields are read from the handler-time
store snapshot; `timestamp` is `Date.now()` evaluated inside the callback,
i.e. the time the confirmation is observed. -/
def mkBridgeTx (env : Env) (txHash : Hash) (currentChain destinationChain : ChainId)
    (userAccount : Address) : BridgeTransaction where
  hash := txHash
  sender := userAccount
  amount := env.enteredAmountH
  symbol := env.selectedTokenH.map Token.symbol
  decimals := env.selectedTokenH.map Token.decimals
  srcChainId := Int.ofNat currentChain
  destChainId := Int.ofNat destinationChain
  tokenType := env.selectedTokenH.map Token.type
  status := .NEW
  timestamp := env.confirmTime

/-- `handleBridgeTxHash` (lines 51-88): reads the store snapshots, aborts
silently when chain ids or sender are unresolvable (line 56), sets the
in-progress status strings, registers the hash with the pending-transaction
tracker and attaches the resolution callback with `.then`.  The callback
marks the flow done, updates the status strings, builds the record, clears
`bridging` and appends the record to the history store.  The `.then` chain
has no rejection handler, so a tracker rejection is returned as the escaped
(detached) error.  The callback's re-read of `$account.address` (line 74)
uses the same snapshot as the captured `userAccount`. -/
def handleBridgeTxHash (env : Env) (txHash : Hash) (s : OState) :
    OState × List Event × Option Err :=
  match env.networkH, env.destNetworkH, env.accountH with
  | some currentChain, some destinationChain, some userAccount =>
    if currentChain = 0 ∨ destinationChain = 0 ∨ userAccount = "" then
      (s, [], none)
    else
      let explorer := env.explorer currentChain
      let s1 := { s with
        statusTitle := env.i18n "bridge.actions.bridge.tx.title",
        statusDescription :=
          env.i18n "bridge.actions.bridge.tx.message" ++ explorer ++ "/tx/" ++ txHash }
      match env.pendingOutcome (some txHash) currentChain with
      | .unresolved => (s1, [.pendingAdded (some txHash) currentChain], none)
      | .rejected e => (s1, [.pendingAdded (some txHash) currentChain], some e)
      | .resolved =>
        let bridgeTx := mkBridgeTx env txHash currentChain destinationChain userAccount
        let s2 := { s1 with
          bridgingStatus := .done,
          statusTitle := env.i18n "bridge.actions.bridge.success.title",
          statusDescription :=
            env.i18n "bridge.nft.step.confirm.bridge.success.message"
              ++ explorer ++ "/tx/" ++ txHash,
          bridging := false,
          txStore := (userAccount, bridgeTx) :: s1.txStore }
        (s2,
         [.pendingAdded (some txHash) currentChain, .confirmed (some txHash),
          .txPersisted userAccount bridgeTx],
         none)
  | _, _, _ => (s, [], none)

/-- The spender (vault) selection of lines 115-118. -/
def spenderFor (env : Env) (netId destId : ChainId) (ty : TokenType) : Address :=
  if ty = TokenType.ERC1155 then
    (env.routingContractsMap netId destId).erc1155VaultAddress
  else
    (env.routingContractsMap netId destId).erc721VaultAddress

/-- The try block of `approve()` (lines 95-147): precondition guard, wallet
acquisition, token-address resolution with cross-chain fallback, spender
selection, approval submission (recording `approveTxHash`), informational
toast, await of the confirmation, approval-status re-query and success
toast.  Returns the state, the events, and how the block ended. -/
def approveTry (env : Env) (s : OState) : OState × List Event × TryExit :=
  match env.selectedToken, env.network, env.destNetwork with
  | some tok, some netId, some destId =>
    if destId = 0 then (s, [], .ok)
    else
      let type := tok.type
      match env.getConnectedWallet netId with
      | .error e => (s, [], .thrown e)
      | .ok walletClient =>
        match env.viemGetAddress (tok.addresses netId) with
        | .error e => (s, [], .thrown e)
        | .ok addr0 =>
          let resolved : Except Err Address :=
            if strTruthy addr0 then .ok (addr0.getD "")
            else
              match env.getCrossChainAddress tok netId destId with
              | .error e => .error e
              | .ok cca =>
                if strTruthy cca then .ok (cca.getD "")
                else .error .crossChainAddressNotFound
          match resolved with
          | .error e => (s, [], .thrown e)
          | .ok tokenAddress =>
            if tokenAddress = "" then (s, [], .thrown .tokenAddressNotFound)
            else
              let tokenIds := env.selectedNFTs.map (fun l => l.map NFT.tokenId)
              let args : NFTApproveArgs :=
                { tokenIds := tokenIds, tokenAddress := tokenAddress,
                  spenderAddress := spenderFor env netId destId type,
                  wallet := walletClient }
              match env.bridgesApprove type args with
              | .error e => (s, [.approveCalled type args], .thrown e)
              | .ok txh =>
                let s1 := { s with approveTxHash := txh }
                let tr1 := [Event.approveCalled type args] ++
                  (if strTruthy txh then [Event.infoToastShown] else [])
                match env.pendingOutcome txh netId with
                | .unresolved => (s1, tr1 ++ [.pendingAdded txh netId], .suspended)
                | .rejected e => (s1, tr1 ++ [.pendingAdded txh netId], .thrown e)
                | .resolved =>
                  match env.getTokenApprovalStatus tok with
                  | .error e =>
                    (s1, tr1 ++ [.pendingAdded txh netId, .confirmed txh,
                      .approvalStatusRefreshed], .thrown e)
                  | .ok _ =>
                    (s1, tr1 ++ [.pendingAdded txh netId, .confirmed txh,
                      .approvalStatusRefreshed, .successToastShown], .ok)
  | _, _, _ => (s, [], .ok)

/-- `approve()` (lines 90-152).  The `isBridgePaused().then(...)` check of
lines 91-93 is fire-and-forget: when the oracle reports paused, the
`BridgePausedError` is thrown inside a `.then` callback whose promise nobody
awaits, so it is returned in `detached` (an unhandled rejection) and the try
block runs regardless of the pause result.  Exceptions thrown inside the try
block are caught at lines 148-151, logged and forwarded to
`handleBridgeError`. -/
def approve (env : Env) (s : OState) : FlowResult :=
  let detached : Option Err := if env.paused then some .bridgePaused else none
  match approveTry env s with
  | (s1, tr, .ok) =>
    { state := s1, trace := tr, completed := true, detached := detached }
  | (s1, tr, .thrown e) =>
    { state := s1, trace := tr ++ [.errorLogged e, .errorHandled e],
      completed := true, detached := detached }
  | (s1, tr, .suspended) =>
    { state := s1, trace := tr, completed := false, detached := detached }

/-- The try block of `bridge()` (lines 157-178), entered after the guard has
bound token, chain ids and sender: wallet acquisition, `commonArgs`
construction, the token-id presence check (`!tokenIds` — an absent list
throws, an empty list passes), args building, submission (recording
`bridgeTxHash`) and, when a truthy hash is obtained, the synchronous part of
`handleBridgeTxHash` together with its attached continuation. -/
def bridgeTry (env : Env) (tok : Token) (netId destId : ChainId) (addr : Address)
    (s : OState) : OState × List Event × Option Err × TryExit :=
  match env.getConnectedWallet netId with
  | .error e => (s, [], none, .thrown e)
  | .ok walletClient =>
    let commonArgs := mkCommonArgs env addr walletClient netId destId
    match env.selectedNFTs.map (fun l => l.map NFT.tokenId) with
    | none => (s, [], none, .thrown .tokenIdsNotFound)
    | some tokenIds =>
      match env.getBridgeArgs tok env.enteredAmount commonArgs tokenIds with
      | .error e => (s, [], none, .thrown e)
      | .ok bridgeArgs =>
        match env.serviceBridge bridgeArgs tokenIds with
        | .error e => (s, [], none, .thrown e)
        | .ok txh =>
          let s1 := { s with bridgeTxHash := txh }
          let tr1 := [Event.bridgeCalled bridgeArgs tokenIds]
          match txh with
          | some hh =>
            if hh = "" then (s1, tr1, none, .ok)
            else
              let (s2, tr2, det) := handleBridgeTxHash env hh s1
              (s2, tr1 ++ tr2, det, .ok)
          | none => (s1, tr1, none, .ok)

/-- `bridge()` (lines 154-184): the precondition guard of line 155 returns
silently when the bridge service, token, source network, destination id or
sender address is absent (JS truthiness: a zero id or empty address is also
absent); otherwise `bridging` is set, the try block runs, and any exception
it throws is caught at lines 179-183: `bridging` is cleared, the error is
logged and forwarded to `handleBridgeError`. -/
def bridge (env : Env) (s : OState) : FlowResult :=
  match env.selectedToken, env.network, env.destNetwork, env.account with
  | some tok, some netId, some destId, some addr =>
    if env.hasBridgeService = false ∨ destId = 0 ∨ addr = "" then
      { state := s, trace := [], completed := true, detached := none }
    else
      let s0 := { s with bridging := true }
      match bridgeTry env tok netId destId addr s0 with
      | (s1, tr, det, .ok) =>
        { state := s1, trace := tr, completed := true, detached := det }
      | (s1, tr, det, .thrown e) =>
        { state := { s1 with bridging := false },
          trace := tr ++ [.errorLogged e, .errorHandled e],
          completed := true, detached := det }
      | (s1, tr, det, .suspended) =>
        { state := s1, trace := tr, completed := false, detached := det }
  | _, _, _, _ =>
    { state := s, trace := [], completed := true, detached := none }

/-- One user-initiated invocation of either flow, with the collaborator
behaviours and store snapshots it observes. -/
inductive Op where
  | doApprove (env : Env)
  | doBridge (env : Env)

/-- State reached after one invocation. -/
def stepOp : Op → OState → OState
  | .doApprove env, s => (approve env s).state
  | .doBridge env, s => (bridge env s).state

/-- State reached after a sequence of invocations. -/
def runOps : List Op → OState → OState
  | [], s => s
  | op :: ops, s => runOps ops (stepOp op s)

/-- Number of pending→done transitions of `bridgingStatus` along a run. -/
def transCount : List Op → OState → Nat
  | [], _ => 0
  | op :: ops, s =>
    (if s.bridgingStatus = .pending ∧ (stepOp op s).bridgingStatus = .done
      then 1 else 0) + transCount ops (stepOp op s)

/-! Concrete environments used for witnesses and counterexamples. -/

/-- A single-unit (ERC721) token with symbol TKO, registered on chain 1. -/
def tokenHappy : Token where
  type := .ERC721
  symbol := "TKO"
  decimals := 0
  addresses := fun c => if c = 1 then some "0xtoken" else none

/-- Happy-path environment: one selected NFT with id 42, source chain 1,
destination chain 10, every collaborator succeeding, confirmation resolving,
submission observed at instant 100 and confirmation at instant 200. -/
def envHappy : Env where
  network := some 1
  destNetwork := some 10
  account := some "0xalice"
  selectedToken := some tokenHappy
  selectedNFTs := some [⟨42⟩]
  hasBridgeService := true
  recipientAddress := none
  processingFee := 5
  enteredAmount := 1
  paused := false
  getConnectedWallet := fun _ => .ok 7
  viemGetAddress := fun a => .ok a
  getCrossChainAddress := fun _ _ _ => .ok none
  routingContractsMap := fun _ _ => ⟨"0x721vault", "0x1155vault"⟩
  bridgesApprove := fun _ _ => .ok (some "0xapprovetx")
  getBridgeArgs := fun _ _ _ _ => .ok "bargs"
  serviceBridge := fun _ _ => .ok (some "0xbridgetx")
  pendingOutcome := fun _ _ => .resolved
  getTokenApprovalStatus := fun _ => .ok ()
  explorer := fun _ => "https://scan"
  i18n := id
  networkH := some 1
  destNetworkH := some 10
  accountH := some "0xalice"
  selectedTokenH := some tokenHappy
  enteredAmountH := 1
  submitTime := 100
  confirmTime := 200

/-- A token whose per-chain address map is empty: the direct source-chain
lookup yields nothing and `approve()` must use the cross-chain fallback. -/
def tokenNoAddress : Token where
  type := .ERC721
  symbol := "TKO"
  decimals := 0
  addresses := fun _ => none

/-- The happy-path environment with the address-less token selected and the
cross-chain resolver producing an address: spender selection is reached via
the fallback of lines 101-109. -/
def envCrossChain : Env :=
  { envHappy with
    selectedToken := some tokenNoAddress,
    getCrossChainAddress := fun _ _ _ => .ok (some "0xcross") }

/-- Computes the full trace and final state of a `bridge()` call whose guard
passes, whose collaborators succeed, whose hash is truthy and whose
confirmation resolves. -/
theorem bridge_happy_run (env : Env) (s : OState) (tok : Token)
    (netId destId : ChainId) (addr : Address) (w : Wallet) (nfts : List NFT)
    (ba : BridgeArgs) (h : Hash) (cH dH : ChainId) (u : Address)
    (hsvc : env.hasBridgeService = true)
    (htok : env.selectedToken = some tok)
    (hnet : env.network = some netId)
    (hdst : env.destNetwork = some destId) (hdst0 : destId ≠ 0)
    (hacc : env.account = some addr) (hacc0 : addr ≠ "")
    (hw : env.getConnectedWallet netId = .ok w)
    (hnfts : env.selectedNFTs = some nfts)
    (hargs : env.getBridgeArgs tok env.enteredAmount
      (mkCommonArgs env addr w netId destId) (nfts.map NFT.tokenId) = .ok ba)
    (hsub : env.serviceBridge ba (nfts.map NFT.tokenId) = .ok (some h))
    (hh : h ≠ "")
    (hnH : env.networkH = some cH) (hcH : cH ≠ 0)
    (hdH : env.destNetworkH = some dH) (hdH0 : dH ≠ 0)
    (haH : env.accountH = some u) (hu : u ≠ "")
    (hres : env.pendingOutcome (some h) cH = .resolved) :
    (bridge env s).trace =
      [Event.bridgeCalled ba (nfts.map NFT.tokenId),
       Event.pendingAdded (some h) cH, Event.confirmed (some h),
       Event.txPersisted u (mkBridgeTx env h cH dH u)] ∧
    (bridge env s).state.txStore = (u, mkBridgeTx env h cH dH u) :: s.txStore ∧
    (bridge env s).state.bridgingStatus = .done ∧
    (bridge env s).state.bridging = false := by
  simp [bridge, bridgeTry, handleBridgeTxHash, htok, hnet, hdst, hacc, hsvc,
    hdst0, hacc0, hw, hnfts, hargs, hsub, hh, hnH, hcH, hdH, hdH0, haH, hu, hres]

/-- C1: for every successful `bridge()` call (guard passed, hash obtained,
confirmation resolved) exactly one record is appended to the transaction
history store, and the append event comes strictly after the confirmation
event — never before resolution. -/
theorem bridge_persists_exactly_once_after_confirmation (env : Env) (s : OState)
    (tok : Token) (netId destId : ChainId) (addr : Address) (w : Wallet)
    (nfts : List NFT) (ba : BridgeArgs) (h : Hash) (cH dH : ChainId) (u : Address)
    (hsvc : env.hasBridgeService = true)
    (htok : env.selectedToken = some tok)
    (hnet : env.network = some netId)
    (hdst : env.destNetwork = some destId) (hdst0 : destId ≠ 0)
    (hacc : env.account = some addr) (hacc0 : addr ≠ "")
    (hw : env.getConnectedWallet netId = .ok w)
    (hnfts : env.selectedNFTs = some nfts)
    (hargs : env.getBridgeArgs tok env.enteredAmount
      (mkCommonArgs env addr w netId destId) (nfts.map NFT.tokenId) = .ok ba)
    (hsub : env.serviceBridge ba (nfts.map NFT.tokenId) = .ok (some h))
    (hh : h ≠ "")
    (hnH : env.networkH = some cH) (hcH : cH ≠ 0)
    (hdH : env.destNetworkH = some dH) (hdH0 : dH ≠ 0)
    (haH : env.accountH = some u) (hu : u ≠ "")
    (hres : env.pendingOutcome (some h) cH = .resolved) :
    (bridge env s).trace.countP Event.isPersist = 1 ∧
    ∀ i : Fin (bridge env s).trace.length,
      ((bridge env s).trace.get i).isPersist = true →
      ∃ j : Fin (bridge env s).trace.length,
        j < i ∧ ((bridge env s).trace.get j).isConfirm = true := by
  obtain ⟨htr, -, -, -⟩ := bridge_happy_run env s tok netId destId addr w nfts
    ba h cH dH u hsvc htok hnet hdst hdst0 hacc hacc0 hw hnfts hargs hsub hh
    hnH hcH hdH hdH0 haH hu hres
  rw [htr]
  refine ⟨rfl, ?_⟩
  intro i hi
  fin_cases i <;> simp [Event.isPersist] at hi ⊢
  exact ⟨⟨2, by omega⟩, by decide, rfl⟩

/-- Witness for C1: the happy-path environment satisfies every hypothesis and
the conclusion holds there. -/
theorem bridge_persists_exactly_once_after_confirmation_witness :
    envHappy.pendingOutcome (some "0xbridgetx") 1 = PendingOutcome.resolved ∧
    ((bridge envHappy initialState).trace.countP Event.isPersist = 1 ∧
      ∀ i : Fin (bridge envHappy initialState).trace.length,
        ((bridge envHappy initialState).trace.get i).isPersist = true →
        ∃ j : Fin (bridge envHappy initialState).trace.length,
          j < i ∧ ((bridge envHappy initialState).trace.get j).isConfirm = true) :=
  ⟨rfl, bridge_persists_exactly_once_after_confirmation envHappy initialState
    tokenHappy 1 10 "0xalice" 7 [⟨42⟩] "bargs" "0xbridgetx" 1 10 "0xalice"
    rfl rfl rfl rfl (by decide) rfl (by decide) rfl rfl rfl rfl (by decide)
    rfl (by decide) rfl (by decide) rfl (by decide) rfl⟩

/-- C5: for every `approve()` call that reaches spender selection and
submits the approval - whether the token address came from the direct lookup
or from the cross-chain fallback - the spender address of the submitted args
is the ERC1155 vault of `routingContractsMap[src][dst]` when the selected
token is of the multi-unit standard, and the ERC721 vault otherwise. -/
theorem approve_spender_selection (env : Env) (s : OState) (tok : Token)
    (netId destId : ChainId)
    (htok : env.selectedToken = some tok)
    (hnet : env.network = some netId)
    (hdst : env.destNetwork = some destId) :
    ∀ ty args, Event.approveCalled ty args ∈ (approve env s).trace →
      ty = tok.type ∧
      args.spenderAddress = spenderFor env netId destId tok.type ∧
      (tok.type = TokenType.ERC1155 →
        args.spenderAddress = (env.routingContractsMap netId destId).erc1155VaultAddress) ∧
      (tok.type ≠ TokenType.ERC1155 →
        args.spenderAddress = (env.routingContractsMap netId destId).erc721VaultAddress) := by
  intro ty args hmem
  have hmem' : Event.approveCalled ty args ∈ (approveTry env s).2.1 := by
    unfold approve at hmem
    repeat' split at hmem
    all_goals simp_all
  have hbase : ty = tok.type ∧ args.spenderAddress = spenderFor env netId destId tok.type := by
    unfold approveTry at hmem'
    rw [htok, hnet, hdst] at hmem'
    repeat' (first | dsimp only at hmem' | split at hmem')
    all_goals simp at hmem'
    all_goals obtain ⟨h1, h2⟩ := hmem'
    all_goals subst h1
    all_goals subst h2
    all_goals exact ⟨rfl, rfl⟩
  obtain ⟨hty, hsp⟩ := hbase
  refine ⟨hty, hsp, ?_, ?_⟩ <;> intro hcase <;> rw [hsp] <;>
    simp [spenderFor, hcase]

/-- Witness for C5, covering both resolution paths: in the happy-path
environment the direct lookup feeds the approval call, in the cross-chain
environment the fallback does, and in both the ERC721 token selects the
ERC721 vault of the registry. -/
theorem approve_spender_selection_witness :
    Event.approveCalled TokenType.ERC721
      { tokenIds := some [42], tokenAddress := "0xtoken",
        spenderAddress := "0x721vault", wallet := 7 }
      ∈ (approve envHappy initialState).trace ∧
    Event.approveCalled TokenType.ERC721
      { tokenIds := some [42], tokenAddress := "0xcross",
        spenderAddress := "0x721vault", wallet := 7 }
      ∈ (approve envCrossChain initialState).trace ∧
    ("0x721vault" : Address) =
      (envHappy.routingContractsMap 1 10).erc721VaultAddress ∧
    ("0x721vault" : Address) =
      (envCrossChain.routingContractsMap 1 10).erc721VaultAddress :=
  ⟨by decide,
   by decide,
   (approve_spender_selection envHappy initialState tokenHappy 1 10
      rfl rfl rfl TokenType.ERC721
      { tokenIds := some [42], tokenAddress := "0xtoken",
        spenderAddress := "0x721vault", wallet := 7 } (by decide)).2.2.2
    (by decide),
   (approve_spender_selection envCrossChain initialState tokenNoAddress 1 10
      rfl rfl rfl TokenType.ERC721
      { tokenIds := some [42], tokenAddress := "0xcross",
        spenderAddress := "0x721vault", wallet := 7 } (by decide)).2.2.2
    (by decide)⟩

/-- C7: when the token has no address on the source chain, the address
oracle yields nothing for the absent entry and the cross-chain resolver also
produces no address, `approve()` ends with the address-not-found error being
logged and forwarded, no approval transaction is submitted, and the state is
untouched. -/
theorem approve_address_not_found (env : Env) (s : OState) (tok : Token)
    (netId destId : ChainId) (w : Wallet)
    (htok : env.selectedToken = some tok)
    (hnet : env.network = some netId)
    (hdst : env.destNetwork = some destId) (hdst0 : destId ≠ 0)
    (hw : env.getConnectedWallet netId = .ok w)
    (hnoaddr : tok.addresses netId = none)
    (hga : env.viemGetAddress none = .ok none)
    (hcc : env.getCrossChainAddress tok netId destId = .ok none) :
    (approve env s).trace =
      [Event.errorLogged Err.crossChainAddressNotFound,
       Event.errorHandled Err.crossChainAddressNotFound] ∧
    Err.isAddressNotFound Err.crossChainAddressNotFound = true ∧
    (∀ ty args, Event.approveCalled ty args ∉ (approve env s).trace) ∧
    (approve env s).state = s := by
  have hrun : approveTry env s =
      (s, [], .thrown Err.crossChainAddressNotFound) := by
    simp [approveTry, htok, hnet, hdst, hdst0, hw, hnoaddr, hga, hcc, strTruthy]
  refine ⟨?_, rfl, ?_, ?_⟩ <;> simp [approve, hrun]

/-- Witness for C7: a token with an empty address map in the otherwise happy
environment hits the address-not-found failure. -/
theorem approve_address_not_found_witness :
    ({ tokenHappy with addresses := fun _ => none } : Token).addresses 1 = none ∧
    (approve { envHappy with
        selectedToken := some { tokenHappy with addresses := fun _ => none } }
      initialState).trace =
      [Event.errorLogged Err.crossChainAddressNotFound,
       Event.errorHandled Err.crossChainAddressNotFound] :=
  ⟨rfl,
   (approve_address_not_found
      { envHappy with
        selectedToken := some { tokenHappy with addresses := fun _ => none } }
      initialState { tokenHappy with addresses := fun _ => none } 1 10 7
      rfl rfl rfl (by decide) rfl rfl rfl rfl).1⟩

/-- Every throwing exit of the bridge try block happens before any event is
emitted and before any state mutation beyond the `bridging` flag: the trace
is empty, no detached error exists and the state is returned unchanged. -/
theorem bridgeTry_thrown (env : Env) (tok : Token) (netId destId : ChainId)
    (addr : Address) (s : OState) (s1 : OState) (tr : List Event)
    (det : Option Err) (e : Err)
    (hthrow : bridgeTry env tok netId destId addr s = (s1, tr, det, .thrown e)) :
    tr = [] ∧ det = none ∧ s1 = s := by
  unfold bridgeTry at hthrow
  rcases h1 : env.getConnectedWallet netId with e1 | w1 <;> rw [h1] at hthrow
  · simp_all
  · rcases h2 : env.selectedNFTs with _ | nfts <;> rw [h2] at hthrow
    · simp_all
    · simp only [Option.map_some'] at hthrow
      rcases h3 : env.getBridgeArgs tok env.enteredAmount
          (mkCommonArgs env addr w1 netId destId) (nfts.map NFT.tokenId)
        with e3 | ba3 <;> rw [h3] at hthrow <;> dsimp only at hthrow
      · simp_all
      · rcases h4 : env.serviceBridge ba3 (nfts.map NFT.tokenId) with e4 | txh <;>
          rw [h4] at hthrow <;> dsimp only at hthrow
        · simp_all
        · rcases txh with _ | hh <;> simp_all
          split at hthrow <;> simp_all

/-- C6: when the try block of `bridge()` throws after the precondition guard
passed, the `bridging` flag is false at completion, no record is appended to
the history store (the store is unchanged and no persist event exists), and
the error is logged and then forwarded to the shared bridge-error handler. -/
theorem bridge_failure_resets_and_persists_nothing (env : Env) (s : OState)
    (tok : Token) (netId destId : ChainId) (addr : Address)
    (s1 : OState) (tr : List Event) (det : Option Err) (e : Err)
    (hsvc : env.hasBridgeService = true)
    (htok : env.selectedToken = some tok)
    (hnet : env.network = some netId)
    (hdst : env.destNetwork = some destId) (hdst0 : destId ≠ 0)
    (hacc : env.account = some addr) (hacc0 : addr ≠ "")
    (hthrow : bridgeTry env tok netId destId addr { s with bridging := true } =
      (s1, tr, det, .thrown e)) :
    (bridge env s).state.bridging = false ∧
    (bridge env s).state.txStore = s.txStore ∧
    (∀ a tx, Event.txPersisted a tx ∉ (bridge env s).trace) ∧
    (bridge env s).trace = [Event.errorLogged e, Event.errorHandled e] ∧
    (bridge env s).completed = true := by
  obtain ⟨htr, hdet, hs1⟩ := bridgeTry_thrown env tok netId destId addr
    { s with bridging := true } s1 tr det e hthrow
  subst htr hdet hs1
  simp [bridge, htok, hnet, hdst, hacc, hsvc, hdst0, hacc0, hthrow]

/-- The happy-path environment except that the args builder throws. -/
def envFailArgs : Env :=
  { envHappy with getBridgeArgs := fun _ _ _ _ => .error (.upstream "boom") }

/-- Witness for C6: failing args building in the otherwise happy environment
leaves `bridging` false, an untouched store and the logged/forwarded error. -/
theorem bridge_failure_resets_and_persists_nothing_witness :
    envFailArgs.hasBridgeService = true ∧
    ((bridge envFailArgs initialState).state.bridging = false ∧
      (bridge envFailArgs initialState).state.txStore = initialState.txStore) :=
  ⟨rfl,
   ⟨(bridge_failure_resets_and_persists_nothing envFailArgs
      initialState tokenHappy 1 10 "0xalice"
      { initialState with bridging := true } [] none (.upstream "boom")
      rfl rfl rfl rfl (by decide) rfl (by decide) rfl).1,
    (bridge_failure_resets_and_persists_nothing envFailArgs
      initialState tokenHappy 1 10 "0xalice"
      { initialState with bridging := true } [] none (.upstream "boom")
      rfl rfl rfl rfl (by decide) rfl (by decide) rfl).2.1⟩⟩

/-- When the handler-time snapshot lacks a truthy source chain id, a truthy
destination chain id or a truthy sender address, `handleBridgeTxHash` returns
before registering the hash: the state is untouched, no events are emitted,
and nothing escapes. -/
theorem handleBridgeTxHash_missing (env : Env) (h : Hash) (s : OState)
    (hmiss : idTruthy env.networkH = false ∨ idTruthy env.destNetworkH = false ∨
      strTruthy env.accountH = false) :
    handleBridgeTxHash env h s = (s, [], none) := by
  unfold handleBridgeTxHash
  rcases hn : env.networkH with _ | c <;> rcases hd : env.destNetworkH with _ | d <;>
    rcases ha : env.accountH with _ | u <;> simp_all [idTruthy, strTruthy]

/-- C10: when `bridge()` obtains a truthy hash but the handler-time store
snapshot lacks a resolvable source chain id, destination chain id or sender
address, the handler aborts before registering the hash and mutates nothing,
so at quiescence `bridging` is still true, `bridgingStatus` is unchanged
(still pending if it was pending), the store is untouched, no registration or
persist event exists, nothing escapes, and the flow never resets these. -/
theorem bridge_handler_missing_context_stuck (env : Env) (s : OState)
    (tok : Token) (netId destId : ChainId) (addr : Address) (w : Wallet)
    (nfts : List NFT) (ba : BridgeArgs) (h : Hash)
    (hsvc : env.hasBridgeService = true)
    (htok : env.selectedToken = some tok)
    (hnet : env.network = some netId)
    (hdst : env.destNetwork = some destId) (hdst0 : destId ≠ 0)
    (hacc : env.account = some addr) (hacc0 : addr ≠ "")
    (hw : env.getConnectedWallet netId = .ok w)
    (hnfts : env.selectedNFTs = some nfts)
    (hargs : env.getBridgeArgs tok env.enteredAmount
      (mkCommonArgs env addr w netId destId) (nfts.map NFT.tokenId) = .ok ba)
    (hsub : env.serviceBridge ba (nfts.map NFT.tokenId) = .ok (some h))
    (hh : h ≠ "")
    (hmiss : idTruthy env.networkH = false ∨ idTruthy env.destNetworkH = false ∨
      strTruthy env.accountH = false) :
    (bridge env s).state = { s with bridging := true, bridgeTxHash := some h } ∧
    (bridge env s).state.bridging = true ∧
    (bridge env s).state.bridgingStatus = s.bridgingStatus ∧
    (bridge env s).state.txStore = s.txStore ∧
    (bridge env s).trace = [Event.bridgeCalled ba (nfts.map NFT.tokenId)] ∧
    (∀ oh c, Event.pendingAdded oh c ∉ (bridge env s).trace) ∧
    (∀ a tx, Event.txPersisted a tx ∉ (bridge env s).trace) ∧
    (bridge env s).detached = none ∧
    (bridge env s).completed = true := by
  have hmr := handleBridgeTxHash_missing env h
    { s with bridging := true, bridgeTxHash := some h } hmiss
  simp [bridge, bridgeTry, htok, hnet, hdst, hacc, hsvc, hdst0, hacc0, hw,
    hnfts, hargs, hsub, hh, hmr]

/-- Witness for C10: an environment whose handler-time network snapshot is
absent leaves the flow stuck with `bridging` true and nothing persisted. -/
theorem bridge_handler_missing_context_stuck_witness :
    idTruthy ({ envHappy with networkH := none } : Env).networkH = false ∧
    ((bridge { envHappy with networkH := none } initialState).state.bridging = true ∧
      (bridge { envHappy with networkH := none } initialState).state.bridgingStatus =
        initialState.bridgingStatus ∧
      (bridge { envHappy with networkH := none } initialState).state.txStore =
        initialState.txStore) :=
  ⟨rfl,
   by
    obtain ⟨-, h2, h3, h4, -⟩ := bridge_handler_missing_context_stuck
      { envHappy with networkH := none } initialState tokenHappy 1 10
      "0xalice" 7 [⟨42⟩] "bargs" "0xbridgetx"
      rfl rfl rfl rfl (by decide) rfl (by decide) rfl rfl rfl rfl (by decide)
      (Or.inl rfl)
    exact ⟨h2, h3, h4⟩⟩

/-- The happy-path environment except that the selected NFT sequence is the
empty array. -/
def envEmptyNFTs : Env := { envHappy with selectedNFTs := some [] }

/-- Counterexample to C2 as stated: with selected NFTs `[]` and otherwise
valid state, `bridge()` does not fail with the token-ids error — the check
`!tokenIds` does not detect an empty array — and a bridge transaction is
submitted. -/
theorem bridge_empty_tokenIds_counterexample :
    envEmptyNFTs.selectedNFTs = some [] ∧
    Event.bridgeCalled "bargs" [] ∈ (bridge envEmptyNFTs initialState).trace ∧
    Event.errorLogged Err.tokenIdsNotFound ∉ (bridge envEmptyNFTs initialState).trace ∧
    Event.errorHandled Err.tokenIdsNotFound ∉ (bridge envEmptyNFTs initialState).trace := by
  refine ⟨rfl, ?_, ?_, ?_⟩ <;> decide

/-- C2 (amended): when the selected NFT sequence is absent (`null`) and the
state is otherwise valid, `bridge()` fails with the token-ids-not-found
error, no bridge transaction is submitted, and `bridging` ends false; an
empty sequence is not rejected by the check. -/
theorem bridge_absent_tokenIds_fails (env : Env) (s : OState)
    (tok : Token) (netId destId : ChainId) (addr : Address) (w : Wallet)
    (hsvc : env.hasBridgeService = true)
    (htok : env.selectedToken = some tok)
    (hnet : env.network = some netId)
    (hdst : env.destNetwork = some destId) (hdst0 : destId ≠ 0)
    (hacc : env.account = some addr) (hacc0 : addr ≠ "")
    (hw : env.getConnectedWallet netId = .ok w)
    (hnfts : env.selectedNFTs = none) :
    (bridge env s).trace =
      [Event.errorLogged Err.tokenIdsNotFound,
       Event.errorHandled Err.tokenIdsNotFound] ∧
    (bridge env s).state.bridging = false ∧
    (∀ ba ids, Event.bridgeCalled ba ids ∉ (bridge env s).trace) ∧
    (bridge env s).state.txStore = s.txStore := by
  simp [bridge, bridgeTry, htok, hnet, hdst, hacc, hsvc, hdst0, hacc0, hw, hnfts]

/-- Witness for the amended C2: absent NFTs in the otherwise happy
environment produce exactly the token-ids failure. -/
theorem bridge_absent_tokenIds_fails_witness :
    ({ envHappy with selectedNFTs := none } : Env).selectedNFTs = none ∧
    (bridge { envHappy with selectedNFTs := none } initialState).trace =
      [Event.errorLogged Err.tokenIdsNotFound,
       Event.errorHandled Err.tokenIdsNotFound] :=
  ⟨rfl,
   (bridge_absent_tokenIds_fails { envHappy with selectedNFTs := none }
      initialState tokenHappy 1 10 "0xalice" 7
      rfl rfl rfl rfl (by decide) rfl (by decide) rfl rfl).1⟩

/-- The happy-path environment with the pause oracle reporting paused. -/
def envPaused : Env := { envHappy with paused := true }

/-- Counterexample to C3 as stated: with the oracle paused and otherwise
valid state, the `BridgePausedError` escapes as an unhandled rejection — it
is never forwarded to the shared bridge-error handler — and the approval
flow proceeds and submits the approval transaction anyway. -/
theorem approve_paused_escape_counterexample :
    (approve envPaused initialState).detached = some Err.bridgePaused ∧
    Event.errorHandled Err.bridgePaused ∉ (approve envPaused initialState).trace ∧
    Event.approveCalled TokenType.ERC721
      { tokenIds := some [42], tokenAddress := "0xtoken",
        spenderAddress := "0x721vault", wallet := 7 }
      ∈ (approve envPaused initialState).trace := by
  refine ⟨rfl, ?_, ?_⟩ <;> decide

/-- The pause check reads no state the try block writes, and the try block
never reads the pause result: the body of `approve()` is unaffected by the
pause flag. -/
theorem approveTry_ignores_paused (env : Env) (p : Bool) (s : OState) :
    approveTry { env with paused := p } s = approveTry env s := by
  cases env
  rfl

/-- C3 (amended): when the pause oracle reports paused, `approve()` raises
the `BridgePausedError` only inside the detached fire-and-forget promise: it
escapes unhandled rather than being caught at the function boundary, and the
state, trace and completion of the call are exactly those of the same call
with the oracle unpaused (the flow does not fail and does not stop).  Errors
thrown inside the try block, by contrast, are caught at the boundary,
logged, and forwarded to the shared bridge-error handler. -/
theorem approve_paused_detached_try_handled (env : Env) (s : OState) :
    (env.paused = true →
      (approve env s).detached = some Err.bridgePaused ∧
      (approve env s).state = (approve { env with paused := false } s).state ∧
      (approve env s).trace = (approve { env with paused := false } s).trace ∧
      (approve env s).completed = (approve { env with paused := false } s).completed) ∧
    (∀ s1 tr e, approveTry env s = (s1, tr, TryExit.thrown e) →
      (approve env s).state = s1 ∧
      (approve env s).trace = tr ++ [Event.errorLogged e, Event.errorHandled e] ∧
      (approve env s).completed = true) := by
  have hbody := approveTry_ignores_paused env false s
  constructor
  · intro hp
    unfold approve
    rw [hbody]
    rcases hres : approveTry env s with ⟨s1, tr, ex⟩
    rcases ex <;> simp [hp]
  · intro s1 tr e hthrow
    unfold approve
    rw [hthrow]
    simp

/-- Witness for the amended C3: in the paused happy-path environment the
detached error is the pause error and the body matches the unpaused run. -/
theorem approve_paused_detached_try_handled_witness :
    envPaused.paused = true ∧
    ((approve envPaused initialState).detached = some Err.bridgePaused ∧
      (approve envPaused initialState).trace =
        (approve { envPaused with paused := false } initialState).trace) :=
  ⟨rfl,
   ⟨((approve_paused_detached_try_handled envPaused initialState).1 rfl).1,
    ((approve_paused_detached_try_handled envPaused initialState).1 rfl).2.2.1⟩⟩

/-- The happy-path environment, paused, with no token selected. -/
def envPausedNoToken : Env :=
  { envHappy with selectedToken := none, paused := true }

/-- Counterexample to C4 as stated: with the token precondition absent but
the oracle paused, invoking `approve()` still raises an error — the detached
pause check fires regardless of preconditions and its `BridgePausedError`
escapes unhandled. -/
theorem approve_missing_precondition_error_counterexample :
    envPausedNoToken.selectedToken = none ∧
    (approve envPausedNoToken initialState).detached = some Err.bridgePaused :=
  ⟨rfl, rfl⟩

/-- C4 (amended): with any required precondition absent, the try body of
`approve()` and the whole of `bridge()` return immediately as silent no-ops
— state untouched, no events, no transaction, completion normal — while
`approve()` still launches the detached pause check, whose unhandled
`BridgePausedError` escapes exactly when the oracle reports paused. -/
theorem preconditions_absent_noop (env : Env) (s : OState) :
    ((env.selectedToken = none ∨ env.network = none ∨
        idTruthy env.destNetwork = false) →
      (approve env s).state = s ∧ (approve env s).trace = [] ∧
      (approve env s).completed = true ∧
      (approve env s).detached =
        (if env.paused then some Err.bridgePaused else none)) ∧
    ((env.hasBridgeService = false ∨ env.selectedToken = none ∨
        env.network = none ∨ idTruthy env.destNetwork = false ∨
        strTruthy env.account = false) →
      (bridge env s).state = s ∧ (bridge env s).trace = [] ∧
      (bridge env s).completed = true ∧ (bridge env s).detached = none) := by
  constructor
  · intro hpre
    have hok : approveTry env s = (s, [], .ok) := by
      unfold approveTry
      rcases ht : env.selectedToken with _ | t <;>
        rcases hn : env.network with _ | n <;>
        rcases hd : env.destNetwork with _ | d <;>
        simp_all [idTruthy]
    simp [approve, hok]
  · intro hpre
    have hnoop : bridge env s =
        { state := s, trace := [], completed := true, detached := none } := by
      unfold bridge
      rcases ht : env.selectedToken with _ | t <;>
        rcases hn : env.network with _ | n <;>
        rcases hd : env.destNetwork with _ | d <;>
        rcases ha : env.account with _ | a <;>
        simp_all [idTruthy, strTruthy]
    simp [hnoop]

/-- Witness for the amended C4: with no token selected (and the oracle not
paused) both flows are exact no-ops. -/
theorem preconditions_absent_noop_witness :
    ({ envHappy with selectedToken := none } : Env).selectedToken = none ∧
    ((approve { envHappy with selectedToken := none } initialState).state =
        initialState ∧
      (approve { envHappy with selectedToken := none } initialState).detached = none ∧
      (bridge { envHappy with selectedToken := none } initialState).state =
        initialState ∧
      (bridge { envHappy with selectedToken := none } initialState).trace = []) := by
  have h := preconditions_absent_noop { envHappy with selectedToken := none }
    initialState
  refine ⟨rfl, ⟨(h.1 (Or.inl rfl)).1, ?_, (h.2 (Or.inr (Or.inl rfl))).1,
    (h.2 (Or.inr (Or.inl rfl))).2.1⟩⟩
  have := (h.1 (Or.inl rfl)).2.2.2
  simpa using this

/-- Counterexample to C8 as stated: the persisted record's timestamp is
`Date.now()` sampled when the confirmation callback runs, not the submission
time: in the happy-path run submitted at instant 100 and confirmed at
instant 200, the stored timestamp is 200. -/
theorem record_timestamp_not_submission_counterexample :
    envHappy.submitTime = 100 ∧ envHappy.confirmTime = 200 ∧
    envHappy.submitTime ≤ envHappy.confirmTime ∧
    ((bridge envHappy initialState).state.txStore.map fun p => p.2.timestamp) = [200] ∧
    envHappy.confirmTime ≠ envHappy.submitTime := by
  refine ⟨rfl, rfl, by decide, ?_, by decide⟩
  decide

/-- C8 (amended): on confirmation, the persisted record carries the bridge
transaction hash, the handler-time amount, symbol, decimals and token type,
the bigint source and destination chain ids, lifecycle status NEW, and as
timestamp the wall-clock instant at which the confirmation callback runs
(the record-creation time, after confirmation — not the submission time). -/
theorem confirmed_record_fields (env : Env) (s : OState)
    (tok tokH : Token) (netId destId : ChainId) (addr : Address) (w : Wallet)
    (nfts : List NFT) (ba : BridgeArgs) (h : Hash) (cH dH : ChainId) (u : Address)
    (hsvc : env.hasBridgeService = true)
    (htok : env.selectedToken = some tok)
    (hnet : env.network = some netId)
    (hdst : env.destNetwork = some destId) (hdst0 : destId ≠ 0)
    (hacc : env.account = some addr) (hacc0 : addr ≠ "")
    (hw : env.getConnectedWallet netId = .ok w)
    (hnfts : env.selectedNFTs = some nfts)
    (hargs : env.getBridgeArgs tok env.enteredAmount
      (mkCommonArgs env addr w netId destId) (nfts.map NFT.tokenId) = .ok ba)
    (hsub : env.serviceBridge ba (nfts.map NFT.tokenId) = .ok (some h))
    (hh : h ≠ "")
    (hnH : env.networkH = some cH) (hcH : cH ≠ 0)
    (hdH : env.destNetworkH = some dH) (hdH0 : dH ≠ 0)
    (haH : env.accountH = some u) (hu : u ≠ "")
    (hres : env.pendingOutcome (some h) cH = .resolved)
    (htokH : env.selectedTokenH = some tokH) :
    (bridge env s).state.txStore = (u, mkBridgeTx env h cH dH u) :: s.txStore ∧
    mkBridgeTx env h cH dH u =
      { hash := h, sender := u, amount := env.enteredAmountH,
        symbol := some tokH.symbol, decimals := some tokH.decimals,
        srcChainId := Int.ofNat cH, destChainId := Int.ofNat dH,
        tokenType := some tokH.type, status := MessageStatus.NEW,
        timestamp := env.confirmTime } := by
  obtain ⟨-, hstore, -, -⟩ := bridge_happy_run env s tok netId destId addr w nfts
    ba h cH dH u hsvc htok hnet hdst hdst0 hacc hacc0 hw hnfts hargs hsub hh
    hnH hcH hdH hdH0 haH hu hres
  exact ⟨hstore, by simp [mkBridgeTx, htokH]⟩

/-- Witness for the amended C8: the happy-path scenario (source chain 1,
destination chain 10) persists one record with bigint chain ids 1 and 10,
status NEW and the confirmation-time timestamp. -/
theorem confirmed_record_fields_witness :
    envHappy.networkH = some 1 ∧ envHappy.destNetworkH = some 10 ∧
    ((bridge envHappy initialState).state.txStore =
        [("0xalice", mkBridgeTx envHappy "0xbridgetx" 1 10 "0xalice")] ∧
      (mkBridgeTx envHappy "0xbridgetx" 1 10 "0xalice").srcChainId = 1 ∧
      (mkBridgeTx envHappy "0xbridgetx" 1 10 "0xalice").destChainId = 10 ∧
      (mkBridgeTx envHappy "0xbridgetx" 1 10 "0xalice").status = MessageStatus.NEW ∧
      (mkBridgeTx envHappy "0xbridgetx" 1 10 "0xalice").timestamp = 200) := by
  refine ⟨rfl, rfl, ?_, rfl, rfl, rfl, rfl⟩
  have h := (confirmed_record_fields envHappy initialState tokenHappy tokenHappy
    1 10 "0xalice" 7 [⟨42⟩] "bargs" "0xbridgetx" 1 10 "0xalice"
    rfl rfl rfl rfl (by decide) rfl (by decide) rfl rfl rfl rfl (by decide)
    rfl (by decide) rfl (by decide) rfl (by decide) rfl rfl).1
  simpa using h

/-- The state returned by the try block of `approve()` can differ from the
input state only in `approveTxHash`; in particular `bridgingStatus` is
untouched. -/
theorem approveTry_preserves_bridgingStatus (env : Env) (s : OState) :
    (approveTry env s).1.bridgingStatus = s.bridgingStatus := by
  unfold approveTry
  repeat' (first | split | dsimp only)

/-- `approve()` never writes `bridgingStatus`. -/
theorem approve_preserves_bridgingStatus (env : Env) (s : OState) :
    (approve env s).state.bridgingStatus = s.bridgingStatus := by
  have hs1 := approveTry_preserves_bridgingStatus env s
  unfold approve
  rcases hres : approveTry env s with ⟨s1, tr, ex⟩
  rw [hres] at hs1
  rcases ex <;> simpa using hs1

/-- The confirmation handler either leaves `bridgingStatus` unchanged, or
sets it to done and then its trace contains the confirmation event. -/
theorem handleBridgeTxHash_status (env : Env) (h : Hash) (s : OState) :
    (handleBridgeTxHash env h s).1.bridgingStatus = s.bridgingStatus ∨
    ((handleBridgeTxHash env h s).1.bridgingStatus = .done ∧
      Event.confirmed (some h) ∈ (handleBridgeTxHash env h s).2.1) := by
  unfold handleBridgeTxHash
  repeat' (first | split | dsimp only)
  all_goals simp

/-- The try block of `bridge()` either leaves `bridgingStatus` unchanged, or
sets it to done with a confirmation event in its trace. -/
theorem bridgeTry_status (env : Env) (tok : Token) (netId destId : ChainId)
    (addr : Address) (s : OState) :
    (bridgeTry env tok netId destId addr s).1.bridgingStatus = s.bridgingStatus ∨
    ((bridgeTry env tok netId destId addr s).1.bridgingStatus = .done ∧
      ∃ oh, Event.confirmed oh ∈ (bridgeTry env tok netId destId addr s).2.1) := by
  unfold bridgeTry
  rcases h1 : env.getConnectedWallet netId with e1 | w1 <;> try dsimp only
  · simp
  · rcases h2 : env.selectedNFTs with _ | nfts <;> try dsimp only
    · simp
    · simp only [Option.map_some']
      rcases h3 : env.getBridgeArgs tok env.enteredAmount
          (mkCommonArgs env addr w1 netId destId) (nfts.map NFT.tokenId)
        with e3 | ba3 <;> try dsimp only
      · simp
      · rcases h4 : env.serviceBridge ba3 (nfts.map NFT.tokenId) with e4 | txh <;>
          try dsimp only
        · simp
        · rcases txh with _ | hh <;> try dsimp only
          · simp
          · split
            · simp
            · have hst := handleBridgeTxHash_status env hh
                { s with bridgeTxHash := some hh }
              rcases hr : handleBridgeTxHash env hh { s with bridgeTxHash := some hh }
                with ⟨s2, tr2, det2⟩
              rw [hr] at hst
              dsimp only
              rcases hst with ha | ⟨ha, hb⟩
              · left
                simpa using ha
              · right
                exact ⟨by simpa using ha, some hh, by simpa using hb⟩

/-- `bridge()` either leaves `bridgingStatus` unchanged, or sets it to done
with a confirmation event in its trace. -/
theorem bridge_preserves_or_confirms (env : Env) (s : OState) :
    (bridge env s).state.bridgingStatus = s.bridgingStatus ∨
    ((bridge env s).state.bridgingStatus = .done ∧
      ∃ oh, Event.confirmed oh ∈ (bridge env s).trace) := by
  unfold bridge
  rcases env.selectedToken with _ | tok <;> rcases env.network with _ | netId <;>
    rcases env.destNetwork with _ | destId <;> rcases env.account with _ | addr <;>
    try simp
  split
  · simp
  · have hst := bridgeTry_status env tok netId destId addr { s with bridging := true }
    rcases hbt : bridgeTry env tok netId destId addr { s with bridging := true }
      with ⟨s1, tr, det, ex⟩
    rw [hbt] at hst
    rcases hst with ha | ⟨ha, oh, hb⟩
    · rcases ex <;> left <;> simpa using ha
    · rcases ex <;> right <;>
        exact ⟨by simpa using ha, oh, by simp; simpa using hb⟩

/-- Once done, one invocation keeps `bridgingStatus` done. -/
theorem stepOp_done (op : Op) (s : OState) (hd : s.bridgingStatus = .done) :
    (stepOp op s).bridgingStatus = .done := by
  rcases op with env | env
  · rw [stepOp, approve_preserves_bridgingStatus]
    exact hd
  · rcases bridge_preserves_or_confirms env s with h | ⟨h, -⟩
    · rw [stepOp, h]
      exact hd
    · rw [stepOp, h]

/-- Once done, any sequence of invocations keeps `bridgingStatus` done. -/
theorem runOps_done (ops : List Op) (s : OState) (hd : s.bridgingStatus = .done) :
    (runOps ops s).bridgingStatus = .done := by
  induction ops generalizing s with
  | nil => simpa [runOps] using hd
  | cons op ops ih => exact ih (stepOp op s) (stepOp_done op s hd)

/-- A run starting done performs no pending→done transition. -/
theorem transCount_done (ops : List Op) (s : OState)
    (hd : s.bridgingStatus = .done) : transCount ops s = 0 := by
  induction ops generalizing s with
  | nil => rfl
  | cons op ops ih =>
    unfold transCount
    rw [hd]
    simpa using ih (stepOp op s) (stepOp_done op s hd)

/-- No run performs more than one pending→done transition. -/
theorem transCount_le_one (ops : List Op) (s : OState) : transCount ops s ≤ 1 := by
  induction ops generalizing s with
  | nil => simp [transCount]
  | cons op ops ih =>
    unfold transCount
    by_cases hc : s.bridgingStatus = .pending ∧ (stepOp op s).bridgingStatus = .done
    · simp [hc, transCount_done ops (stepOp op s) hc.2]
    · simpa [hc] using ih (stepOp op s)

/-- C9: along any sequence of `approve()`/`bridge()` invocations,
`bridgingStatus` never reverts from done, makes at most one pending→done
transition, is never changed by `approve()`, and is changed by `bridge()`
only from pending to done and only in a run whose trace contains the
confirmation event. -/
theorem bridgingStatus_pending_done_once (ops : List Op) (s : OState) :
    (s.bridgingStatus = .done → (runOps ops s).bridgingStatus = .done) ∧
    transCount ops s ≤ 1 ∧
    (∀ env s2, (stepOp (Op.doApprove env) s2).bridgingStatus = s2.bridgingStatus) ∧
    (∀ env s2, (stepOp (Op.doBridge env) s2).bridgingStatus ≠ s2.bridgingStatus →
      s2.bridgingStatus = .pending ∧
      (stepOp (Op.doBridge env) s2).bridgingStatus = .done ∧
      ∃ oh, Event.confirmed oh ∈ (bridge env s2).trace) := by
  refine ⟨fun hd => runOps_done ops s hd, transCount_le_one ops s, ?_, ?_⟩
  · intro env s2
    rw [stepOp, approve_preserves_bridgingStatus]
  · intro env s2 hne
    rcases bridge_preserves_or_confirms env s2 with h | ⟨h, hc⟩
    · exact absurd h hne
    · refine ⟨?_, h, hc⟩
      rcases hs2 : s2.bridgingStatus
      · rfl
      · exact absurd ((stepOp_done (Op.doBridge env) s2 hs2).trans hs2.symm) hne

/-- Witness for C9: from a done state, one further `approve()` invocation
keeps the status done and the run has no transition. -/
theorem bridgingStatus_pending_done_once_witness :
    ({ initialState with bridgingStatus := BridgingStatus.done } : OState).bridgingStatus =
      BridgingStatus.done ∧
    (runOps [Op.doApprove envHappy]
      { initialState with bridgingStatus := BridgingStatus.done }).bridgingStatus =
      BridgingStatus.done ∧
    transCount [Op.doApprove envHappy]
      { initialState with bridgingStatus := BridgingStatus.done } ≤ 1 :=
  ⟨rfl,
   (bridgingStatus_pending_done_once [Op.doApprove envHappy]
      { initialState with bridgingStatus := BridgingStatus.done }).1 rfl,
   (bridgingStatus_pending_done_once [Op.doApprove envHappy]
      { initialState with bridgingStatus := BridgingStatus.done }).2.1⟩

end ConfirmationStep
